import Mathlib

/-!
Shallow embedding of the pico-bike-trainer control core
(`Class_LoadController.py`, `Class_MotorSensor.py`, `Class_BLEController.py`)
and proofs of the specification claims about it.

Python floats are modelled by `ℚ` (all constants in the relevant code are
exact decimals), machine integers by `ℤ`/`ℕ`, `bytes` payloads by `List ℕ`,
and fallible code by `Option`.
-/

/-- Python's built-in one-argument `round`: round to the nearest integer,
ties going to the even neighbour. -/
def pythonRound (q : ℚ) : ℤ :=
  if q - (⌊q⌋ : ℚ) = 1 / 2 then
    if ⌊q⌋ % 2 = 0 then ⌊q⌋ else ⌊q⌋ + 1
  else round q

/-- Python's `int()` truncation toward zero on a rational value. -/
def pyTrunc (q : ℚ) : ℤ :=
  if 0 ≤ q then ⌊q⌋ else ⌈q⌉

/-- The gear-ratio data read from the `GearSelector` collaborator:
`get_current_ratio()`, `min_ratio`, `max_ratio`. -/
structure GearState where
  current_ratio : ℚ
  min_ratio : ℚ
  max_ratio : ℚ

/-- `LoadController._calculate_base_load`: normalize the current gear ratio to
[0,1] (0 when `max_ratio <= min_ratio` or no gear selector is attached), map to
`50 + normalized * 25`, and scale by `base_load_factor`. -/
def calculate_base_load (gear : Option GearState) (base_load_factor : ℚ) : ℚ :=
  match gear with
  | some g =>
      let normalized_ratio : ℚ :=
        if g.min_ratio < g.max_ratio then
          (g.current_ratio - g.min_ratio) / (g.max_ratio - g.min_ratio)
        else 0
      (50 + normalized_ratio * 25) * base_load_factor
  | none => 50 * base_load_factor

/-- `LoadController._calculate_incline_load`: `incline_percent / 100 * 25`. -/
def calculate_incline_load (incline_percent : ℚ) : ℚ :=
  incline_percent / 100 * 25

/-- The total-load computation of `LoadController._update_load` (lines
496-507): base load plus incline load, clamped to [0,100], then quantized to
the nearest multiple of 5 via Python `round`. -/
def update_load_total (gear : Option GearState) (base_load_factor incline_percent : ℚ) : ℚ :=
  let base_load := calculate_base_load gear base_load_factor
  let incline_load := calculate_incline_load incline_percent
  let total1 := base_load + incline_load
  let total2 := max 0 (min 100 total1)
  (pythonRound (total2 / 5) : ℚ) * 5

lemma floor_le_pythonRound (q : ℚ) : ⌊q⌋ ≤ pythonRound q := by
  unfold pythonRound
  split
  · split
    · exact le_refl _
    · omega
  · rw [round_eq]
    exact Int.floor_mono (by linarith)

lemma pythonRound_le_ceil (q : ℚ) : pythonRound q ≤ ⌈q⌉ := by
  unfold pythonRound
  split
  · rename_i htie
    have hlt : (⌊q⌋ : ℚ) < q := by linarith
    have h : ⌊q⌋ < ⌈q⌉ := Int.lt_ceil.mpr hlt
    split
    · omega
    · omega
  · rw [round_eq]
    have h1 : q + 1 / 2 < (⌈q⌉ : ℚ) + 1 := by
      have := Int.le_ceil q
      linarith
    have := Int.floor_lt.mpr (by push_cast; linarith : q + 1 / 2 < ((⌈q⌉ + 1 : ℤ) : ℚ))
    omega

lemma pythonRound_nonneg {q : ℚ} (h : 0 ≤ q) : 0 ≤ pythonRound q := by
  have h0 : (0 : ℤ) ≤ ⌊q⌋ := Int.le_floor.mpr (by exact_mod_cast h)
  exact le_trans h0 (floor_le_pythonRound q)

lemma pythonRound_le {q : ℚ} {n : ℤ} (h : q ≤ n) : pythonRound q ≤ n := by
  exact le_trans (pythonRound_le_ceil q) (Int.ceil_le.mpr h)

/-- C1: for every gear ratio in `[min_ratio, max_ratio]` and every incline in
`[-100, 100]`, the total load computed by the load update (base load from gear
plus incline load, clamped, then quantized) is a multiple of 5 and lies in
`[0, 100]`. -/
theorem total_load_multiple_of_five (g : GearState) (factor i : ℚ)
    (hrl : g.min_ratio ≤ g.current_ratio) (hru : g.current_ratio ≤ g.max_ratio)
    (hil : -100 ≤ i) (hiu : i ≤ 100) :
    ∃ k : ℤ, update_load_total (some g) factor i = (k : ℚ) * 5 ∧
      0 ≤ update_load_total (some g) factor i ∧
      update_load_total (some g) factor i ≤ 100 := by
  set t := calculate_base_load (some g) factor + calculate_incline_load i with ht
  have heq : update_load_total (some g) factor i =
      (pythonRound (max 0 (min 100 t) / 5) : ℚ) * 5 := rfl
  have hc0 : (0 : ℚ) ≤ max 0 (min 100 t) := le_max_left _ _
  have hc100 : max 0 (min 100 t) ≤ 100 := max_le (by norm_num) (min_le_left _ _)
  have hq0 : (0 : ℚ) ≤ max 0 (min 100 t) / 5 := by positivity
  have hq20 : max 0 (min 100 t) / 5 ≤ (20 : ℤ) := by push_cast; linarith
  have hk0 : 0 ≤ pythonRound (max 0 (min 100 t) / 5) := pythonRound_nonneg hq0
  have hk20 : pythonRound (max 0 (min 100 t) / 5) ≤ 20 := pythonRound_le hq20
  refine ⟨pythonRound (max 0 (min 100 t) / 5), heq, ?_, ?_⟩
  · rw [heq]
    have : (0 : ℚ) ≤ (pythonRound (max 0 (min 100 t) / 5) : ℚ) := by exact_mod_cast hk0
    linarith
  · rw [heq]
    have : (pythonRound (max 0 (min 100 t) / 5) : ℚ) ≤ 20 := by exact_mod_cast hk20
    linarith

/-- C1 witness: concrete instantiation at gear ratio 1 in [1,4], incline 0. -/
theorem total_load_multiple_of_five_witness :
    ∃ k : ℤ, update_load_total (some ⟨1, 1, 4⟩) 1 0 = (k : ℚ) * 5 ∧
      0 ≤ update_load_total (some ⟨1, 1, 4⟩) 1 0 ∧
      update_load_total (some ⟨1, 1, 4⟩) 1 0 ≤ 100 :=
  total_load_multiple_of_five ⟨1, 1, 4⟩ 1 0 (by norm_num) (by norm_num)
    (by norm_num) (by norm_num)

/-- C6: with `base_load_factor = 1`, the base load is
`50 + (r - min)/(max - min) * 25` whenever `min_ratio < max_ratio`, so the
first gear gives 50, the top gear gives 75, any ratio in range gives a value
in [25,75]; with `max_ratio <= min_ratio` the base load is 50. -/
theorem base_load_range (g : GearState) :
    (g.min_ratio < g.max_ratio →
       calculate_base_load (some g) 1 =
         50 + (g.current_ratio - g.min_ratio) / (g.max_ratio - g.min_ratio) * 25) ∧
    (g.min_ratio < g.max_ratio → g.current_ratio = g.min_ratio →
       calculate_base_load (some g) 1 = 50) ∧
    (g.min_ratio < g.max_ratio → g.current_ratio = g.max_ratio →
       calculate_base_load (some g) 1 = 75) ∧
    (g.min_ratio < g.max_ratio → g.min_ratio ≤ g.current_ratio →
       g.current_ratio ≤ g.max_ratio →
       25 ≤ calculate_base_load (some g) 1 ∧ calculate_base_load (some g) 1 ≤ 75) ∧
    (g.max_ratio ≤ g.min_ratio → calculate_base_load (some g) 1 = 50) := by
  refine ⟨?_, ?_, ?_, ?_, ?_⟩
  · intro hlt
    simp only [calculate_base_load, if_pos hlt]
    ring
  · intro hlt hmin
    simp only [calculate_base_load, if_pos hlt, hmin]
    field_simp
  · intro hlt hmax
    simp only [calculate_base_load, if_pos hlt, hmax]
    have hne : g.max_ratio - g.min_ratio ≠ 0 := by linarith
    field_simp
    ring
  · intro hlt hle hge
    simp only [calculate_base_load, if_pos hlt]
    have hpos : (0 : ℚ) < g.max_ratio - g.min_ratio := by linarith
    have h0 : (0 : ℚ) ≤ (g.current_ratio - g.min_ratio) / (g.max_ratio - g.min_ratio) :=
      div_nonneg (by linarith) (le_of_lt hpos)
    have h1 : (g.current_ratio - g.min_ratio) / (g.max_ratio - g.min_ratio) ≤ 1 :=
      (div_le_one hpos).mpr (by linarith)
    constructor <;> nlinarith
  · intro hge
    have hnlt : ¬ g.min_ratio < g.max_ratio := not_lt.mpr hge
    simp only [calculate_base_load, if_neg hnlt]
    ring

/-- C6 witness: concrete gear state with ratio 2 in [1,4]. -/
theorem base_load_range_witness :
    calculate_base_load (some ⟨2, 1, 4⟩) 1 =
      50 + ((2 : ℚ) - 1) / (4 - 1) * 25 ∧
    (25 ≤ calculate_base_load (some ⟨2, 1, 4⟩) 1 ∧
      calculate_base_load (some ⟨2, 1, 4⟩) 1 ≤ 75) ∧
    calculate_base_load (some ⟨2, 4, 3⟩) 1 = 50 :=
  ⟨(base_load_range ⟨2, 1, 4⟩).1 (by norm_num),
   (base_load_range ⟨2, 1, 4⟩).2.2.2.1 (by norm_num) (by norm_num) (by norm_num),
   (base_load_range ⟨2, 4, 3⟩).2.2.2.2 (by norm_num)⟩

/-- State of `MotorSensor` relevant to the rotation ISR: the pulse count, the
ticks-per-crank constant (1000), the signed crank position and the direction
sign set by `set_motor_direction_forward`/`set_motor_direction_reverse`. -/
structure MotorSensorState where
  motor_pulse_count : ℤ
  motor_rotations_per_motor_crank : ℤ
  motor_crank_position : ℤ
  motor_direction : ℤ

/-- `MotorSensor._motor_pulse_handler`: add the direction sign to the pulse
count and crank position, then wrap at a full rotation (forward only) or clamp
at `±(motor_rotations_per_motor_crank // 2)`.  Python `//` is floor division,
hence `Int.fdiv`. -/
def motor_pulse_handler (s : MotorSensorState) : MotorSensorState :=
  let pulse := s.motor_pulse_count + s.motor_direction
  let pos := s.motor_crank_position + s.motor_direction
  let max_load_position := Int.fdiv s.motor_rotations_per_motor_crank 2
  let pos2 :=
    if s.motor_direction = 1 then
      if pos ≥ s.motor_rotations_per_motor_crank then 0
      else if pos > max_load_position then max_load_position
      else pos
    else
      if pos < -max_load_position then -max_load_position
      else pos
  { s with motor_pulse_count := pulse, motor_crank_position := pos2 }

/-- `MotorSensor.set_motor_direction_forward`. -/
def sensor_direction_forward (s : MotorSensorState) : MotorSensorState :=
  { s with motor_direction := 1 }

/-- `MotorSensor.set_motor_direction_reverse`. -/
def sensor_direction_reverse (s : MotorSensorState) : MotorSensorState :=
  { s with motor_direction := -1 }

/-- An event acting on the motor sensor: a rotation-ISR pulse or one of the
two direction setters. -/
inductive MotorEvent where
  | pulse : MotorEvent
  | setForward : MotorEvent
  | setReverse : MotorEvent

/-- Apply one motor event to the sensor state. -/
def motorStep (s : MotorSensorState) (e : MotorEvent) : MotorSensorState :=
  match e with
  | MotorEvent.pulse => motor_pulse_handler s
  | MotorEvent.setForward => sensor_direction_forward s
  | MotorEvent.setReverse => sensor_direction_reverse s

/-- Apply a sequence of motor events. -/
def motorRun (s : MotorSensorState) (es : List MotorEvent) : MotorSensorState :=
  es.foldl motorStep s

/-- The sensor-state invariant of the deployed configuration: 1000 ticks per
crank rotation, direction sign in {1, -1}, position clamped to `[-500, 500]`. -/
def MotorInv (s : MotorSensorState) : Prop :=
  s.motor_rotations_per_motor_crank = 1000 ∧
  (s.motor_direction = 1 ∨ s.motor_direction = -1) ∧
  |s.motor_crank_position| ≤ 500

lemma motorStep_inv {s : MotorSensorState} (h : MotorInv s) (e : MotorEvent) :
    MotorInv (motorStep s e) := by
  obtain ⟨hrpc, hdir, hpos⟩ := h
  cases e with
  | pulse =>
      have hfd : Int.fdiv (1000 : ℤ) 2 = 500 := by decide
      rcases hdir with hd | hd <;>
        simp only [motorStep, motor_pulse_handler, MotorInv, hd, hrpc] <;>
        norm_num <;>
        rw [abs_le] at hpos ⊢ <;>
        split <;>
        omega
  | setForward =>
      exact ⟨hrpc, Or.inl rfl, hpos⟩
  | setReverse =>
      exact ⟨hrpc, Or.inr rfl, hpos⟩

lemma motorRun_inv {s : MotorSensorState} (h : MotorInv s) (es : List MotorEvent) :
    MotorInv (motorRun s es) := by
  induction es generalizing s with
  | nil => exact h
  | cons e rest ih => exact ih (motorStep_inv h e)

/-- C2: starting from any position with `|p| ≤ 500` (with the deployed
1000-ticks-per-crank constant and a valid direction sign), after any sequence
of rotation-ISR invocations arbitrarily interleaved with forward/reverse
direction settings, the crank position still satisfies `|position| ≤ 500`;
since this holds for every event sequence it holds after each ISR step. -/
theorem motor_crank_position_clamped (s : MotorSensorState)
    (hrpc : s.motor_rotations_per_motor_crank = 1000)
    (hdir : s.motor_direction = 1 ∨ s.motor_direction = -1)
    (hpos : |s.motor_crank_position| ≤ 500)
    (es : List MotorEvent) :
    |(motorRun s es).motor_crank_position| ≤ 500 :=
  (motorRun_inv ⟨hrpc, hdir, hpos⟩ es).2.2

/-- C2 witness: 501 forward pulses from position 0 stay clamped. -/
theorem motor_crank_position_clamped_witness :
    |(motorRun ⟨0, 1000, 0, 1⟩
        (List.replicate 501 MotorEvent.pulse)).motor_crank_position| ≤ 500 :=
  motor_crank_position_clamped ⟨0, 1000, 0, 1⟩ rfl (Or.inl rfl) (by decide)
    (List.replicate 501 MotorEvent.pulse)

/-- Motor-control state of `LoadController`: the two L298N direction pin
values, the cached direction, the run flag, and the direction sign forwarded
to the motor sensor by the direction setters. -/
structure MotorState where
  in1 : ℕ
  in2 : ℕ
  current_direction : Option Bool
  motor_is_running : Bool
  sensor_direction : ℤ

/-- `LoadController.stop_motor`: both pins low, direction cleared. -/
def stop_motor (s : MotorState) : MotorState :=
  { s with in1 := 0, in2 := 0, current_direction := none }

/-- `LoadController.set_motor_direction_forward`: IN1 high, IN2 low, and the
motor sensor's direction sign set to +1. -/
def set_motor_direction_forward (s : MotorState) : MotorState :=
  { s with in1 := 1, in2 := 0, current_direction := some true, sensor_direction := 1 }

/-- `LoadController.set_motor_direction_reverse`: IN1 low, IN2 high, and the
motor sensor's direction sign set to -1. -/
def set_motor_direction_reverse (s : MotorState) : MotorState :=
  { s with in1 := 0, in2 := 1, current_direction := some false, sensor_direction := -1 }

/-- Outcome of the seek loop in `_move_motor_to_position`: reached the target
within the 5-tick tolerance, or the 30-second timeout expired. -/
inductive SeekOutcome where
  | converged : SeekOutcome
  | timedOut : SeekOutcome

/-- The seek loop of `_move_motor_to_position`: poll the sensor position once
per iteration, exit on `|target - current| ≤ 5`; the finite trace of sensor
readings ending models the timeout expiring. -/
def seek_loop (target : ℤ) : List ℤ → SeekOutcome
  | [] => SeekOutcome.timedOut
  | p :: rest =>
      if |target - p| ≤ 5 then SeekOutcome.converged else seek_loop target rest

/-- `LoadController._move_motor_to_position`: return unchanged (no outcome)
when no motor sensor is attached or a motion is already in flight; otherwise
set the run flag, set the direction pins, run the seek loop on the trace of
sensor readings, then stop the motor and clear the run flag. -/
def move_motor_to_position (has_sensor : Bool) (s : MotorState) (target : ℤ)
    (forward : Bool) (trace : List ℤ) : MotorState × Option SeekOutcome :=
  if has_sensor = false ∨ s.motor_is_running then (s, none)
  else
    let s1 := { s with motor_is_running := true }
    let s2 := if forward then set_motor_direction_forward s1
              else set_motor_direction_reverse s1
    let outcome := seek_loop target trace
    let s3 := stop_motor s2
    ({ s3 with motor_is_running := false }, some outcome)

/-- C7: whenever the seek loop of `_move_motor_to_position` actually runs (a
motor sensor is attached and no motion is in flight), then for every target
position, direction, and sensor-reading trace — i.e. for both the convergence
and the timeout outcome — the exit state has both direction pins low and the
run flag cleared. -/
theorem move_motor_stops_on_exit (s : MotorState) (target : ℤ) (forward : Bool)
    (trace : List ℤ) (hrun : s.motor_is_running = false) :
    let r := move_motor_to_position true s target forward trace
    r.1.in1 = 0 ∧ r.1.in2 = 0 ∧ r.1.motor_is_running = false ∧ r.2.isSome = true := by
  simp only [move_motor_to_position, hrun]
  cases forward <;> simp [stop_motor, set_motor_direction_forward,
    set_motor_direction_reverse]

/-- C7 witness: a concrete idle state, a target of 40, and both a converging
trace and an exhausted (timeout) trace. -/
theorem move_motor_stops_on_exit_witness :
    (let r := move_motor_to_position true ⟨1, 0, some true, false, 1⟩ 40 true [0, 38]
     r.1.in1 = 0 ∧ r.1.in2 = 0 ∧ r.1.motor_is_running = false ∧ r.2.isSome = true) ∧
    (let r := move_motor_to_position true ⟨1, 0, some true, false, 1⟩ 40 false []
     r.1.in1 = 0 ∧ r.1.in2 = 0 ∧ r.1.motor_is_running = false ∧ r.2.isSome = true) :=
  ⟨move_motor_stops_on_exit ⟨1, 0, some true, false, 1⟩ 40 true [0, 38] rfl,
   move_motor_stops_on_exit ⟨1, 0, some true, false, 1⟩ 40 false [] rfl⟩

/-- C8: a call to `_move_motor_to_position` made while `motor_is_running` is
true returns immediately: the state is returned unchanged (no pin writes, no
flag change) and no seek outcome is produced — the request is dropped, not
queued. -/
theorem move_motor_noop_while_running (has_sensor : Bool) (s : MotorState)
    (target : ℤ) (forward : Bool) (trace : List ℤ)
    (hrun : s.motor_is_running = true) :
    move_motor_to_position has_sensor s target forward trace = (s, none) := by
  simp [move_motor_to_position, hrun]

/-- C8 witness: a concrete busy state is returned untouched. -/
theorem move_motor_noop_while_running_witness :
    move_motor_to_position true ⟨1, 0, some true, true, 1⟩ 200 true [0, 50, 100] =
      (⟨1, 0, some true, true, 1⟩, none) :=
  move_motor_noop_while_running true ⟨1, 0, some true, true, 1⟩ 200 true
    [0, 50, 100] rfl

/-- Decode a little-endian signed 16-bit integer from two payload bytes, as
`struct.unpack("<h", ...)` does. -/
def int16_le (b0 b1 : ℕ) : ℤ :=
  let v : ℤ := (b0 : ℤ) + 256 * (b1 : ℤ)
  if 32768 ≤ v then v - 65536 else v

/-- Decode a little-endian unsigned 16-bit integer from two payload bytes, as
`struct.unpack("<H", ...)` does. -/
def uint16_le (b0 b1 : ℕ) : ℤ :=
  (b0 : ℤ) + 256 * (b1 : ℤ)

/-- The `BLEController` state touched by the control-point handler. -/
structure BLEState where
  connected : Bool
  control_granted : Bool
  target_incline : ℚ
  target_resistance : ℤ
  target_power : ℤ
  sim_wind_speed : ℤ
  sim_grade : ℤ
  sim_crr : ℤ
  sim_cw : ℤ

/-- Observable effects of one `_handle_control_point` call: the bytes written
to the control-point characteristic (`none` when the handler returned before
writing a response), whether an indication was sent, the status and
training-status notifications, and the incline values forwarded to
`LoadController.set_incline`. -/
structure CPEffects where
  response : Option (List ℕ)
  indicated : Bool
  statusNotifies : List (ℕ × List ℕ)
  trainingNotifies : List ℕ
  inclineForwards : List ℚ

/-- `BLEController._notify_status`: a notification is emitted only while
connected. -/
def notifyStatus (connected : Bool) (code : ℕ) (params : List ℕ) :
    List (ℕ × List ℕ) :=
  if connected then [(code, params)] else []

/-- `BLEController._notify_training_status`: emitted only while connected. -/
def notifyTraining (connected : Bool) (status : ℕ) : List ℕ :=
  if connected then [status] else []

/-- The op-code dispatch of `_handle_control_point`: returns the mutated
state, the result code, and the notifications/forwards of the taken branch.
Byte accesses mirror the guarded `value[i]`/`struct.unpack` slices of the
source; a failed access (`none`) models a raised exception. -/
def cpDispatch (hasLC : Bool) (st : BLEState) (value : List ℕ) (op : ℕ) :
    Option (BLEState × ℕ × List (ℕ × List ℕ) × List ℕ × List ℚ) :=
  if op = 0x00 then
    some ({ st with control_granted := true }, 0x01, [], [], [])
  else if op = 0x01 then
    some ({ st with target_incline := 0, target_resistance := 0, target_power := 0 },
          0x01, notifyStatus st.connected 0x01 [], [], [])
  else if op = 0x03 then
    if 3 ≤ value.length then
      match value[1]?, value[2]? with
      | some b1, some b2 =>
          let incline : ℚ := (int16_le b1 b2 : ℚ) / 10
          some ({ st with target_incline := incline }, 0x01,
                notifyStatus st.connected 0x06 [b1, b2], [],
                if hasLC then [incline] else [])
      | _, _ => none
    else some (st, 0x03, [], [], [])
  else if op = 0x04 then
    if 3 ≤ value.length then
      match value[1]?, value[2]? with
      | some b1, some b2 =>
          let resistance := int16_le b1 b2
          let resistance_pct : ℚ := (resistance : ℚ) / 10
          some ({ st with target_resistance := resistance }, 0x01,
                notifyStatus st.connected 0x07 [b1, b2], [],
                if hasLC then [resistance_pct] else [])
      | _, _ => none
    else some (st, 0x03, [], [], [])
  else if op = 0x05 then
    if 3 ≤ value.length then
      match value[1]?, value[2]? with
      | some b1, some b2 =>
          some ({ st with target_power := uint16_le b1 b2 }, 0x01,
                notifyStatus st.connected 0x08 [b1, b2], [], [])
      | _, _ => none
    else some (st, 0x03, [], [], [])
  else if op = 0x07 then
    some (st, 0x01, notifyStatus st.connected 0x04 [],
          notifyTraining st.connected 0x04, [])
  else if op = 0x08 then
    let param := (value[1]?).getD 0x01
    some (st, 0x01, notifyStatus st.connected 0x02 [param],
          notifyTraining st.connected 0x01, [])
  else if op = 0x11 then
    if 7 ≤ value.length then
      match (value[1]? : Option ℕ), (value[2]? : Option ℕ), (value[3]? : Option ℕ),
        (value[4]? : Option ℕ), (value[5]? : Option ℕ), (value[6]? : Option ℕ) with
      | some b1, some b2, some b3, some b4, some b5, some b6 =>
          let wind := int16_le b1 b2
          let grade := int16_le b3 b4
          let grade_pct : ℚ := (grade : ℚ) / 100
          some ({ st with sim_wind_speed := wind, sim_grade := grade,
                          sim_crr := (b5 : ℤ), sim_cw := (b6 : ℤ),
                          target_incline := grade_pct }, 0x01,
                notifyStatus st.connected 0x12 [b1, b2, b3, b4, b5, b6], [],
                if hasLC then [grade_pct] else [])
      | _, _, _, _, _, _ => none
    else some (st, 0x03, [], [], [])
  else
    some (st, 0x02, [], [], [])

/-- `BLEController._handle_control_point`: return with no response on a
payload shorter than one byte; otherwise dispatch on the op code, write the
`[0x80, op, result]` response frame, and indicate exactly when connected. -/
def handleControlPoint (hasLC : Bool) (st : BLEState) (value : List ℕ) :
    Option (BLEState × CPEffects) :=
  match value with
  | [] => some (st, ⟨none, false, [], [], []⟩)
  | op :: _ =>
      (cpDispatch hasLC st value op).map (fun b =>
        (b.1, ⟨some [0x80, op, b.2.1], st.connected, b.2.2.1, b.2.2.2.1, b.2.2.2.2⟩))

lemma cpDispatch_isSome (hasLC : Bool) (st : BLEState) (value : List ℕ)
    (op : ℕ) : (cpDispatch hasLC st value op).isSome = true := by
  unfold cpDispatch
  by_cases h0 : op = 0
  · simp [h0]
  by_cases h1 : op = 1
  · simp [h0, h1]
  by_cases h3 : op = 3
  · by_cases hl : 3 ≤ value.length
    · have e1 := List.getElem?_eq_getElem (show 1 < value.length by omega)
      have e2 := List.getElem?_eq_getElem (show 2 < value.length by omega)
      simp [h0, h1, h3, hl, e1, e2]
    · simp [h0, h1, h3, hl]
  by_cases h4 : op = 4
  · by_cases hl : 3 ≤ value.length
    · have e1 := List.getElem?_eq_getElem (show 1 < value.length by omega)
      have e2 := List.getElem?_eq_getElem (show 2 < value.length by omega)
      simp [h0, h1, h3, h4, hl, e1, e2]
    · simp [h0, h1, h3, h4, hl]
  by_cases h5 : op = 5
  · by_cases hl : 3 ≤ value.length
    · have e1 := List.getElem?_eq_getElem (show 1 < value.length by omega)
      have e2 := List.getElem?_eq_getElem (show 2 < value.length by omega)
      simp [h0, h1, h3, h4, h5, hl, e1, e2]
    · simp [h0, h1, h3, h4, h5, hl]
  by_cases h7 : op = 7
  · simp [h0, h1, h3, h4, h5, h7]
  by_cases h8 : op = 8
  · simp [h0, h1, h3, h4, h5, h7, h8]
  by_cases h17 : op = 17
  · by_cases hl : 7 ≤ value.length
    · have e1 := List.getElem?_eq_getElem (show 1 < value.length by omega)
      have e2 := List.getElem?_eq_getElem (show 2 < value.length by omega)
      have e3 := List.getElem?_eq_getElem (show 3 < value.length by omega)
      have e4 := List.getElem?_eq_getElem (show 4 < value.length by omega)
      have e5 := List.getElem?_eq_getElem (show 5 < value.length by omega)
      have e6 := List.getElem?_eq_getElem (show 6 < value.length by omega)
      simp [h0, h1, h3, h4, h5, h7, h8, h17, hl, e1, e2, e3, e4, e5, e6]
    · simp [h0, h1, h3, h4, h5, h7, h8, h17, hl]
  · simp [h0, h1, h3, h4, h5, h7, h8, h17]

/-- Effects of a dispatch that only reports an error result: the response
frame `[0x80, op, result]`, an indication exactly when connected, and no
notifications or forwards. -/
def errEffects (st : BLEState) (op result : ℕ) : CPEffects :=
  ⟨some [0x80, op, result], st.connected, [], [], []⟩

/-- A disconnected controller state with all targets zero. -/
def bleZero : BLEState :=
  ⟨false, false, 0, 0, 0, 0, 0, 0, 0⟩

/-- A connected controller state with all targets zero. -/
def bleConnectedZero : BLEState :=
  ⟨true, false, 0, 0, 0, 0, 0, 0, 0⟩

lemma handleControlPoint_cons (hasLC : Bool) (st : BLEState) (op : ℕ)
    (rest : List ℕ) :
    handleControlPoint hasLC st (op :: rest) =
      (cpDispatch hasLC st (op :: rest) op).map (fun b =>
        (b.1, ⟨some [0x80, op, b.2.1], st.connected, b.2.2.1, b.2.2.2.1,
               b.2.2.2.2⟩)) := rfl

lemma cpDispatch_short3 (hasLC : Bool) (st : BLEState) (value : List ℕ)
    (op : ℕ) (hop : op = 3 ∨ op = 4 ∨ op = 5) (hlen : ¬ 3 ≤ value.length) :
    cpDispatch hasLC st value op = some (st, 3, [], [], []) := by
  rcases hop with h | h | h <;> subst h <;> simp [cpDispatch, hlen]

lemma cpDispatch_short17 (hasLC : Bool) (st : BLEState) (value : List ℕ)
    (hlen : ¬ 7 ≤ value.length) :
    cpDispatch hasLC st value 17 = some (st, 3, [], [], []) := by
  simp [cpDispatch, hlen]

lemma cpDispatch_unknown (hasLC : Bool) (st : BLEState) (value : List ℕ)
    (op : ℕ) (h0 : op ≠ 0) (h1 : op ≠ 1) (h3 : op ≠ 3) (h4 : op ≠ 4)
    (h5 : op ≠ 5) (h7 : op ≠ 7) (h8 : op ≠ 8) (h17 : op ≠ 17) :
    cpDispatch hasLC st value op = some (st, 2, [], [], []) := by
  simp [cpDispatch, h0, h1, h3, h4, h5, h7, h8, h17]

/-- C3: a control-point write `[0x03, 0x32, 0x00]` (Set Target Inclination,
int16 LE value 50) sets `target_incline` to exactly 5.0, forwards 5.0 to the
load controller's `set_incline` exactly when one is attached, and produces
result code 0x01 (SUCCESS) in the response frame. -/
theorem set_target_inclination_success (hasLC : Bool) (st : BLEState) :
    ∃ st2 eff, handleControlPoint hasLC st [0x03, 0x32, 0x00] = some (st2, eff) ∧
      st2.target_incline = 5 ∧
      eff.response = some [0x80, 0x03, 0x01] ∧
      eff.inclineForwards = (if hasLC then [(5 : ℚ)] else []) := by
  refine ⟨_, _, rfl, ?_, rfl, ?_⟩
  · show ((int16_le 0x32 0x00 : ℚ) / 10) = 5
    norm_num [int16_le]
  · show (if hasLC then [(int16_le 0x32 0x00 : ℚ) / 10] else []) =
      (if hasLC then [(5 : ℚ)] else [])
    norm_num [int16_le]

/-- C4: the control-point handler's error handling.  (1) No payload ever
makes the handler raise an exception (the embedded handler always returns
`some`).  (2) For ops 0x03/0x04/0x05 with fewer than 3 bytes the result is
0x03 (INVALID_PARAM) and the state is unchanged, with no notification and no
forward to the load controller.  (3) The same for op 0x11 with fewer than 7
bytes.  (4) For any unknown op code the result is 0x02 (NOT_SUPPORTED) with
no state mutation. -/
theorem control_point_error_handling :
    (∀ (hasLC : Bool) (st : BLEState) (value : List ℕ),
        (handleControlPoint hasLC st value).isSome = true) ∧
    (∀ (hasLC : Bool) (st : BLEState) (op : ℕ) (rest : List ℕ),
        (op = 0x03 ∨ op = 0x04 ∨ op = 0x05) → (op :: rest).length < 3 →
        handleControlPoint hasLC st (op :: rest) = some (st, errEffects st op 0x03)) ∧
    (∀ (hasLC : Bool) (st : BLEState) (rest : List ℕ),
        (0x11 :: rest).length < 7 →
        handleControlPoint hasLC st (0x11 :: rest) =
          some (st, errEffects st 0x11 0x03)) ∧
    (∀ (hasLC : Bool) (st : BLEState) (op : ℕ) (rest : List ℕ),
        op ≠ 0x00 → op ≠ 0x01 → op ≠ 0x03 → op ≠ 0x04 → op ≠ 0x05 →
        op ≠ 0x07 → op ≠ 0x08 → op ≠ 0x11 →
        handleControlPoint hasLC st (op :: rest) =
          some (st, errEffects st op 0x02)) := by
  refine ⟨?_, ?_, ?_, ?_⟩
  · intro hasLC st value
    match value with
    | [] => rfl
    | op :: rest =>
        rw [handleControlPoint_cons]
        obtain ⟨b, hb⟩ := Option.isSome_iff_exists.mp
          (cpDispatch_isSome hasLC st (op :: rest) op)
        rw [hb]
        rfl
  · intro hasLC st op rest hop hlen
    rw [handleControlPoint_cons,
      cpDispatch_short3 hasLC st (op :: rest) op hop (by omega)]
    rfl
  · intro hasLC st rest hlen
    rw [handleControlPoint_cons,
      cpDispatch_short17 hasLC st ((0x11 : ℕ) :: rest) (by omega)]
    rfl
  · intro hasLC st op rest h0 h1 h3 h4 h5 h7 h8 h17
    rw [handleControlPoint_cons,
      cpDispatch_unknown hasLC st (op :: rest) op h0 h1 h3 h4 h5 h7 h8 h17]
    rfl

/-- C4 witness: a 1-byte Set Target Inclination write, a 3-byte simulation
write, and an unknown op 0xFF, all on a concrete state. -/
theorem control_point_error_handling_witness :
    (handleControlPoint true bleZero [0x03]).isSome = true ∧
    handleControlPoint true bleZero [0x03] =
      some (bleZero, errEffects bleZero 0x03 0x03) ∧
    handleControlPoint true bleZero [0x11, 0, 0] =
      some (bleZero, errEffects bleZero 0x11 0x03) ∧
    handleControlPoint true bleZero [0xFF] =
      some (bleZero, errEffects bleZero 0xFF 0x02) :=
  ⟨control_point_error_handling.1 true bleZero [0x03],
   control_point_error_handling.2.1 true bleZero 0x03 [] (Or.inl rfl) (by decide),
   control_point_error_handling.2.2.1 true bleZero [0, 0] (by decide),
   control_point_error_handling.2.2.2 true bleZero 0xFF [] (by decide) (by decide)
     (by decide) (by decide) (by decide) (by decide) (by decide) (by decide)⟩

/-- C5 counterexample: the claim says every control-point write, including
the empty payload, produces the `[0x80, op, result]` response frame and an
indication when connected; but on the empty payload the handler returns
before writing any response, even on a connected state. -/
theorem control_point_empty_payload_no_response :
    handleControlPoint true bleConnectedZero [] =
      some (bleConnectedZero, ⟨none, false, [], [], []⟩) ∧
    bleConnectedZero.connected = true :=
  ⟨rfl, rfl⟩

/-- C5 (amended): for every NON-EMPTY control-point write, the handler writes
the fixed three-byte response frame `[0x80, op_code, result_code]` to the
control-point characteristic and sends an indication exactly when connected;
an empty write produces no response and no indication. -/
theorem control_point_response_frame (hasLC : Bool) (st : BLEState) (op : ℕ)
    (rest : List ℕ) :
    (∃ st2 eff result, handleControlPoint hasLC st (op :: rest) = some (st2, eff) ∧
       eff.response = some [0x80, op, result] ∧
       eff.indicated = st.connected) ∧
    handleControlPoint hasLC st [] = some (st, ⟨none, false, [], [], []⟩) := by
  constructor
  · obtain ⟨b, hb⟩ := Option.isSome_iff_exists.mp
      (cpDispatch_isSome hasLC st (op :: rest) op)
    refine ⟨b.1, ⟨some [0x80, op, b.2.1], st.connected, b.2.2.1, b.2.2.2.1,
      b.2.2.2.2⟩, b.2.1, ?_, rfl, rfl⟩
    rw [handleControlPoint_cons, hb]
    rfl
  · rfl

/-- C10: a control-point Reset (op 0x01) zeroes `target_incline`,
`target_resistance` and `target_power`, leaves the simulation parameters,
`control_granted` and the connection state unchanged, and forwards nothing to
the load controller. -/
theorem reset_zeroes_targets_only (hasLC : Bool) (st : BLEState)
    (rest : List ℕ) :
    ∃ st2 eff, handleControlPoint hasLC st (0x01 :: rest) = some (st2, eff) ∧
      st2.target_incline = 0 ∧ st2.target_resistance = 0 ∧ st2.target_power = 0 ∧
      st2.sim_wind_speed = st.sim_wind_speed ∧ st2.sim_grade = st.sim_grade ∧
      st2.sim_crr = st.sim_crr ∧ st2.sim_cw = st.sim_cw ∧
      st2.control_granted = st.control_granted ∧ st2.connected = st.connected ∧
      eff.inclineForwards = [] ∧ eff.response = some [0x80, 0x01, 0x01] :=
  ⟨_, _, rfl, rfl, rfl, rfl, rfl, rfl, rfl, rfl, rfl, rfl, rfl, rfl⟩

/-- The CSC broadcast state of `BLEController`: cumulative revolution
counters, last event times and the time of the previous broadcast tick. -/
structure CSCState where
  wheel_revolutions : ℤ
  crank_revolutions : ℤ
  last_wheel_event_time : ℤ
  last_crank_event_time : ℤ
  last_update_time : ℤ

/-- `BLEController.update_csc_data`: no-op while disconnected; otherwise,
when a previous tick exists (`last_update_time > 0`), integrate
`rpm / 60 * dt_sec` into each cumulative counter for each RPM that is
strictly positive (Python `int()` truncates), stamp the corresponding event
time with the low 16 bits of the 1/1024-second clock, and finally record the
tick time. -/
def update_csc_data (connected : Bool) (st : CSCState) (current_time : ℤ)
    (wheel_rpm crank_rpm : ℚ) : CSCState :=
  if connected = false then st
  else
    let current_time_1024 := Int.fdiv (current_time * 1024) 1000
    let dt_sec : ℚ := ((current_time - st.last_update_time : ℤ) : ℚ) / 1000
    let st1 :=
      if 0 < st.last_update_time then
        let stW :=
          if 0 < wheel_rpm then
            { st with
                wheel_revolutions :=
                  st.wheel_revolutions + pyTrunc (wheel_rpm / 60 * dt_sec),
                last_wheel_event_time := current_time_1024 % 65536 }
          else st
        if 0 < crank_rpm then
          { stW with
              crank_revolutions :=
                stW.crank_revolutions + pyTrunc (crank_rpm / 60 * dt_sec),
              last_crank_event_time := current_time_1024 % 65536 }
        else stW
      else st
    { st1 with last_update_time := current_time }

/-- A sequence of CSC broadcast ticks, each a `(time, wheel_rpm, crank_rpm)`
triple, applied in order. -/
def runCsc (connected : Bool) (st : CSCState) (ticks : List (ℤ × ℚ × ℚ)) :
    CSCState :=
  ticks.foldl (fun s tick => update_csc_data connected s tick.1 tick.2.1 tick.2.2) st

/-- Validity of a tick sequence relative to a starting clock value:
non-negative elapsed time between consecutive ticks and non-negative RPMs. -/
def ValidTicks : ℤ → List (ℤ × ℚ × ℚ) → Prop
  | _, [] => True
  | t0, tick :: rest =>
      t0 ≤ tick.1 ∧ 0 ≤ tick.2.1 ∧ 0 ≤ tick.2.2 ∧ ValidTicks tick.1 rest

lemma pyTrunc_nonneg {q : ℚ} (h : 0 ≤ q) : 0 ≤ pyTrunc q := by
  unfold pyTrunc
  rw [if_pos h]
  exact Int.le_floor.mpr (by exact_mod_cast h)

lemma update_csc_step (st : CSCState) (t : ℤ) (w c : ℚ)
    (ht : st.last_update_time ≤ t) (hw : 0 ≤ w) (hc : 0 ≤ c) :
    st.wheel_revolutions ≤ (update_csc_data true st t w c).wheel_revolutions ∧
    st.crank_revolutions ≤ (update_csc_data true st t w c).crank_revolutions ∧
    (update_csc_data true st t w c).last_update_time = t := by
  have hdt : (0 : ℚ) ≤ ((t : ℚ) - (st.last_update_time : ℚ)) / 1000 := by
    have h0 : (0 : ℚ) ≤ (t : ℚ) - (st.last_update_time : ℚ) := by
      have := sub_nonneg.mpr ht
      exact_mod_cast this
    positivity
  have hwt : 0 ≤ pyTrunc (w / 60 * (((t : ℚ) - (st.last_update_time : ℚ)) / 1000)) :=
    pyTrunc_nonneg (mul_nonneg (div_nonneg hw (by norm_num)) hdt)
  have hct : 0 ≤ pyTrunc (c / 60 * (((t : ℚ) - (st.last_update_time : ℚ)) / 1000)) :=
    pyTrunc_nonneg (mul_nonneg (div_nonneg hc (by norm_num)) hdt)
  unfold update_csc_data
  split_ifs <;>
    first
      | exact (False.elim (by assumption))
      | (simp <;> omega)

lemma update_csc_not_connected (st : CSCState) (t : ℤ) (w c : ℚ) :
    update_csc_data false st t w c = st := rfl

lemma runCsc_not_connected (ticks : List (ℤ × ℚ × ℚ)) :
    ∀ st : CSCState, runCsc false st ticks = st := by
  induction ticks with
  | nil => intro st; rfl
  | cons tick rest ih =>
      intro st
      show runCsc false (update_csc_data false st tick.1 tick.2.1 tick.2.2) rest = st
      rw [update_csc_not_connected, ih]

lemma runCsc_mono_true (ticks : List (ℤ × ℚ × ℚ)) :
    ∀ st : CSCState, ValidTicks st.last_update_time ticks →
    st.wheel_revolutions ≤ (runCsc true st ticks).wheel_revolutions ∧
    st.crank_revolutions ≤ (runCsc true st ticks).crank_revolutions := by
  induction ticks with
  | nil => intro st _; exact ⟨le_refl _, le_refl _⟩
  | cons tick rest ih =>
      intro st hv
      obtain ⟨ht, hw, hc, hrest⟩ := hv
      obtain ⟨hw1, hc1, hlu1⟩ := update_csc_step st tick.1 tick.2.1 tick.2.2 ht hw hc
      have hrest2 : ValidTicks
          (update_csc_data true st tick.1 tick.2.1 tick.2.2).last_update_time rest := by
        rw [hlu1]; exact hrest
      obtain ⟨hw2, hc2⟩ := ih (update_csc_data true st tick.1 tick.2.1 tick.2.2) hrest2
      exact ⟨le_trans hw1 hw2, le_trans hc1 hc2⟩

lemma runCsc_mono (connected : Bool) (st : CSCState)
    (ticks : List (ℤ × ℚ × ℚ)) (hv : ValidTicks st.last_update_time ticks) :
    st.wheel_revolutions ≤ (runCsc connected st ticks).wheel_revolutions ∧
    st.crank_revolutions ≤ (runCsc connected st ticks).crank_revolutions := by
  cases connected with
  | false =>
      rw [runCsc_not_connected ticks st]
      exact ⟨le_refl _, le_refl _⟩
  | true => exact runCsc_mono_true ticks st hv

lemma update_csc_wheel_unchanged (connected : Bool) (st : CSCState) (t : ℤ)
    (w c : ℚ) (hwp : ¬ 0 < w) :
    (update_csc_data connected st t w c).wheel_revolutions = st.wheel_revolutions := by
  cases connected with
  | false => rfl
  | true =>
      by_cases hlu : 0 < st.last_update_time <;>
        by_cases hcp : 0 < c <;>
        simp [update_csc_data, hlu, hwp, hcp]

lemma update_csc_crank_unchanged (connected : Bool) (st : CSCState) (t : ℤ)
    (w c : ℚ) (hcp : ¬ 0 < c) :
    (update_csc_data connected st t w c).crank_revolutions = st.crank_revolutions := by
  cases connected with
  | false => rfl
  | true =>
      by_cases hlu : 0 < st.last_update_time <;>
        by_cases hwp : 0 < w <;>
        simp [update_csc_data, hlu, hwp, hcp]

/-- C9: across any sequence of CSC broadcast ticks with non-negative elapsed
time between ticks and non-negative wheel/crank RPM, the cumulative
`wheel_revolutions` and `crank_revolutions` counters never decrease; and on
any single tick a counter changes only if its corresponding RPM is strictly
positive. -/
theorem csc_counters_monotone :
    (∀ (connected : Bool) (st : CSCState) (ticks : List (ℤ × ℚ × ℚ)),
        ValidTicks st.last_update_time ticks →
        st.wheel_revolutions ≤ (runCsc connected st ticks).wheel_revolutions ∧
        st.crank_revolutions ≤ (runCsc connected st ticks).crank_revolutions) ∧
    (∀ (connected : Bool) (st : CSCState) (t : ℤ) (w c : ℚ),
        (update_csc_data connected st t w c).wheel_revolutions ≠ st.wheel_revolutions →
        0 < w) ∧
    (∀ (connected : Bool) (st : CSCState) (t : ℤ) (w c : ℚ),
        (update_csc_data connected st t w c).crank_revolutions ≠ st.crank_revolutions →
        0 < c) := by
  refine ⟨runCsc_mono, ?_, ?_⟩
  · intro connected st t w c h
    by_contra hwp
    exact h (update_csc_wheel_unchanged connected st t w c hwp)
  · intro connected st t w c h
    by_contra hcp
    exact h (update_csc_crank_unchanged connected st t w c hcp)

/-- C9 witness: two concrete ticks at 60 RPM advance both counters and the
advance implies the positive-RPM guard. -/
theorem csc_counters_monotone_witness :
    ((⟨0, 0, 0, 0, 1000⟩ : CSCState).wheel_revolutions ≤
       (runCsc true ⟨0, 0, 0, 0, 1000⟩ [(2000, 60, 60), (3000, 60, 60)]).wheel_revolutions ∧
     (⟨0, 0, 0, 0, 1000⟩ : CSCState).crank_revolutions ≤
       (runCsc true ⟨0, 0, 0, 0, 1000⟩ [(2000, 60, 60), (3000, 60, 60)]).crank_revolutions) ∧
    (0 : ℚ) < 60 :=
  ⟨csc_counters_monotone.1 true ⟨0, 0, 0, 0, 1000⟩ [(2000, 60, 60), (3000, 60, 60)]
     ⟨by norm_num, by norm_num, by norm_num, by norm_num, by norm_num, by norm_num, trivial⟩,
   csc_counters_monotone.2.1 true ⟨0, 0, 0, 0, 1000⟩ 61000 60 0
     (by norm_num [update_csc_data, pyTrunc])⟩
